import Mathlib

/-!
Verification development for the `lora` package of single_chan_pkt_fwd
(src/lora/lora.go): a codec between the internal packet types and the
Semtech packet-forwarder JSON wire format.

Modelling conventions:
- Go unsigned integers (uint8/uint16/uint32) are modelled as `Nat`; where
  the source performs a narrowing conversion the model takes the value
  modulo 2^w at that point.
- Go `float32`/`float64` are modelled as `Rat`.  The only places where a
  float is converted to an integer hold the value 0 in every execution of
  this program (the wire struct is never populated), so rounding-mode
  subtleties of the conversions do not affect any theorem below; the model
  uses truncation toward zero, matching the Go conversion for in-range
  values.
- `time.Time` is external library state; the codec only ever renders it
  with `Format(time.RFC3339)`, so it is modelled by that rendering.
- `fmt.Errorf` results are modelled by an inductive error type carrying
  the same data the source interpolates into the message.
- A Go panic (out-of-range slice index in `MarshalJSON`) is modelled by
  the whole function returning `none`.
-/

/-- Models Go `time.Time` by the string its `Format(time.RFC3339)` call
returns; the codec performs no other operation on times. -/
structure GoTime where
  rfc3339 : String
deriving DecidableEq

/-- Zero value of `time.Time`, as rendered by RFC 3339 formatting. -/
def goTimeZero : GoTime := { rfc3339 := "0001-01-01T00:00:00Z" }

/-- A JSON value as Go `encoding/json` unmarshals into `interface\x7b\x7d`:
`nil`, `string`, `float64` or `bool` (arrays/objects cannot occur in the
`datr` position and are omitted). -/
inductive JsonVal where
  | null : JsonVal
  | str (s : String) : JsonVal
  | num (q : Rat) : JsonVal
  | boolVal (b : Bool) : JsonVal
deriving DecidableEq

/-- Truncation toward zero of a rational, models the Go conversion
float-to-integer for in-range values. -/
def truncRat (q : Rat) : Int :=
  if 0 ≤ q then q.floor else -((-q).floor)

/-- `TxPacket` (src/lora/lora.go lines 11-44), field for field.  Unsigned
fields are `Nat`, payload bytes are `List Nat`. -/
structure TxPacket where
  Immediate : Bool
  CountUs : Nat
  TimeGPS : GoTime
  Freq : Nat
  Power : Nat
  ChainRF : Nat
  Modulation : String
  LoRaBW : Nat
  LoRaCR : Nat
  InvertPolar : Bool
  Datarate : Nat
  PreambleLength : Nat
  NoCRC : Bool
  FreqDev : Nat
  Data : List Nat
deriving DecidableEq

/-- The anonymous wire struct declared inside `UnarshalJSON`
(lines 48-65), with its JSON-tagged fields.  `Datarate` is the
`interface\x7b\x7d`-typed `datr` field. -/
structure TxWire where
  Immediate : Bool
  CountUs : Nat
  TimeGPS : Nat
  NoCRC : Bool
  Freq : Rat
  ChainRF : Nat
  Power : Nat
  Modulation : String
  Datarate : JsonVal
  Coderate : String
  InvertPolar : Bool
  PreambleLength : Nat
  FreqDev : Rat
  Data : String

/-- The Go zero value of the wire struct, i.e. the `\x7b\x7d` literal at line 65.
A `nil` interface value is `JsonVal.null`. -/
def zeroTxWire : TxWire :=
  { Immediate := false, CountUs := 0, TimeGPS := 0, NoCRC := false,
    Freq := 0, ChainRF := 0, Power := 0, Modulation := "",
    Datarate := JsonVal.null, Coderate := "", InvertPolar := false,
    PreambleLength := 0, FreqDev := 0, Data := "" }

/-- The decode error values produced by the `fmt.Errorf` calls of
`UnarshalJSON`, carrying the data the source interpolates. -/
inductive DecodeError where
  | loraDatrNotString (v : JsonVal) : DecodeError
  | loraDatrParse (s : String) : DecodeError
  | unknownBandwidth (s : String) (bw : Int) : DecodeError
  | unknownCodingRate (s : String) : DecodeError
  | fskDatrNotNumber (v : JsonVal) : DecodeError
  | unknownModulation (s : String) : DecodeError
  | base64Error (s : String) : DecodeError
deriving DecidableEq

/-- Drops spaces, models the whitespace skipping `fmt.Sscanf` performs
before a numeric verb. -/
def skipSpaces : List Char → List Char
  | c :: rest => if c = ' ' then skipSpaces rest else c :: rest
  | [] => []

/-- Splits a leading run of decimal digits off a character list. -/
def takeDigits : List Char → (List Char × List Char)
  | c :: rest =>
    if c.isDigit then
      let p := takeDigits rest
      (c :: p.1, p.2)
    else ([], c :: rest)
  | [] => ([], [])

/-- Decimal value of a digit list. -/
def digitsToNat (l : List Char) : Nat :=
  l.foldl (fun a c => a * 10 + (c.toNat - 48)) 0

/-- Matches a literal character sequence at the head of the input,
as literal characters in an `fmt.Sscanf` format string must match. -/
def dropLit : List Char → List Char → Option (List Char)
  | [], l => some l
  | a :: la, b :: lb => if a = b then dropLit la lb else none
  | _ :: _, [] => none

/-- Models `fmt.Sscanf(datr, "SF%dBW%d", &tx.Datarate, &bw)` (line 83).
Returns (value written into `tx.Datarate` if the first verb succeeded,
value of `bw` if the whole scan succeeded): `Sscanf` assigns operands as
it goes, so a scan that fails at the `BW` literal has already written the
spreading factor.  The first verb targets a `uint32` (no sign accepted),
the second an `int` (optional minus sign).  Trailing input beyond the
format is ignored, as `Sscanf` ignores it. -/
def parseSFBW (s : String) : Option Nat × Option Int :=
  match dropLit (['S', 'F']) s.toList with
  | none => (none, none)
  | some r1 =>
    let r1 := skipSpaces r1
    let p1 := takeDigits r1
    if p1.1.isEmpty then (none, none)
    else
      let sf := digitsToNat p1.1
      match dropLit (['B', 'W']) p1.2 with
      | none => (some sf, none)
      | some r3 =>
        let r3 := skipSpaces r3
        let pneg : Bool × List Char :=
          match r3 with
          | c :: rest => if c = '-' then (true, rest) else (false, r3)
          | [] => (false, [])
        let p2 := takeDigits pneg.2
        if p2.1.isEmpty then (some sf, none)
        else (some sf, some (if pneg.1 then -(digitsToNat p2.1 : Int)
                             else (digitsToNat p2.1 : Int)))

/-- The bandwidth switch of the decoder (lines 87-110): scanned integer
bandwidth to `LoRaBW` code.  Note the source maps 128 (not 125) to
code 8. -/
def bwCode : Int → Option Nat
  | 7 => some 1
  | 10 => some 2
  | 15 => some 3
  | 20 => some 4
  | 31 => some 5
  | 41 => some 6
  | 62 => some 7
  | 128 => some 8
  | 250 => some 9
  | 500 => some 10
  | _ => none

/-- The coderate switch of the decoder (lines 111-122): wire `codr`
string to `LoRaCR` code, with the alias cases of the source. -/
def crCode : String → Option Nat
  | "4/5" => some 5
  | "4/6" => some 6
  | "2/3" => some 6
  | "4/7" => some 7
  | "4/8" => some 8
  | "2/4" => some 8
  | "1/2" => some 8
  | _ => none

/-- Value of a standard-base64 alphabet character. -/
def b64Index (c : Char) : Option Nat :=
  if 65 ≤ c.toNat ∧ c.toNat ≤ 90 then some (c.toNat - 65)
  else if 97 ≤ c.toNat ∧ c.toNat ≤ 122 then some (c.toNat - 97 + 26)
  else if 48 ≤ c.toNat ∧ c.toNat ≤ 57 then some (c.toNat - 48 + 52)
  else if c = '+' then some 62
  else if c = '/' then some 63
  else none

/-- Decodes 4-character base64 groups to bytes; padding only in the last
group, which may carry one or two `=` characters.  Unused trailing bits
are discarded without checking, as Go `StdEncoding` (non-strict) does. -/
def b64DecodeGroups : List Char → Option (List Nat)
  | [] => some []
  | a :: b :: c :: d :: rest =>
    match b64Index a, b64Index b with
    | some x, some y =>
      if c = '=' then
        if d = '=' ∧ rest = [] then some [x * 4 + y / 16] else none
      else
        match b64Index c with
        | some z =>
          if d = '=' then
            if rest = [] then some [x * 4 + y / 16, (y % 16) * 16 + z / 4]
            else none
          else
            match b64Index d with
            | some w =>
              match b64DecodeGroups rest with
              | some tail =>
                some ([x * 4 + y / 16, (y % 16) * 16 + z / 4,
                       (z % 4) * 64 + w] ++ tail)
              | none => none
            | none => none
        | none => none
    | _, _ => none
  | _ => none

/-- Models `base64.StdEncoding.DecodeString` (line 141): CR and LF are
ignored, everything else must be well-formed padded standard base64. -/
def base64Decode (s : String) : Option (List Nat) :=
  b64DecodeGroups
    (s.toList.filter (fun c => !(c == Char.ofNat 13 || c == Char.ofNat 10)))

/-- The common tail of `UnarshalJSON` after the modulation switch
(lines 141-146): decode the base64 payload into `tx.Data`. -/
def finishData (tx : TxPacket) (dataStr : String) :
    Option DecodeError × TxPacket :=
  match base64Decode dataStr with
  | none => (some (DecodeError.base64Error dataStr), tx)
  | some bytes => (none, { tx with Data := bytes })

/-- `(*TxPacket).UnarshalJSON` (lines 46-147), translated statement by
statement.  The Go method mutates the receiver and returns an `error`;
the model threads the receiver explicitly and returns the error
(`some e` for a non-nil error) together with the final receiver state.
As in the source, the input byte slice parameter is unused: the local
wire struct `txpk` is declared with its zero value and never populated
from the input (`json.Unmarshal` is never called). -/
def UnarshalJSON (tx : TxPacket) (_input : List Nat) :
    Option DecodeError × TxPacket :=
  let txpk := zeroTxWire
  let tx := { tx with
    Immediate := txpk.Immediate,
    CountUs := txpk.CountUs,
    NoCRC := txpk.NoCRC,
    Freq := (truncRat (txpk.Freq * 1000000)).toNat % 4294967296,
    ChainRF := txpk.ChainRF,
    Power := txpk.Power }
  match txpk.Modulation with
  | "LORA" =>
    let tx := { tx with Modulation := "LORA" }
    match txpk.Datarate with
    | JsonVal.str datr =>
      let p := parseSFBW datr
      let tx :=
        match p.1 with
        | some sf => { tx with Datarate := sf % 4294967296 }
        | none => tx
      match p.2 with
      | none => (some (DecodeError.loraDatrParse datr), tx)
      | some bw =>
        match bwCode bw with
        | none => (some (DecodeError.unknownBandwidth datr bw), tx)
        | some code =>
          let tx := { tx with LoRaBW := code }
          match crCode txpk.Coderate with
          | none => (some (DecodeError.unknownCodingRate txpk.Coderate), tx)
          | some cr =>
            let tx := { tx with LoRaCR := cr,
                                InvertPolar := txpk.InvertPolar,
                                PreambleLength := txpk.PreambleLength }
            finishData tx txpk.Data
    | v => (some (DecodeError.loraDatrNotString v), tx)
  | "FSK" =>
    let tx := { tx with Modulation := "FSK" }
    match txpk.Datarate with
    | JsonVal.num d =>
      let tx := { tx with
        Datarate := (truncRat d).toNat % 4294967296,
        FreqDev := (truncRat (txpk.FreqDev / 1000)).toNat % 256,
        PreambleLength := txpk.PreambleLength }
      finishData tx txpk.Data
    | v => (some (DecodeError.fskDatrNotNumber v), tx)
  | m => (some (DecodeError.unknownModulation m), tx)

/-- UTF-8 bytes of an ASCII string, to present concrete inputs to
`UnarshalJSON` the way the transport layer would hand them over. -/
def strBytes (s : String) : List Nat := s.toList.map Char.toNat

/-- The all-zero `TxPacket` (Go zero value of the receiver). -/
def txZero : TxPacket :=
  { Immediate := false, CountUs := 0, TimeGPS := goTimeZero, Freq := 0,
    Power := 0, ChainRF := 0, Modulation := "", LoRaBW := 0, LoRaCR := 0,
    InvertPolar := false, Datarate := 0, PreambleLength := 0,
    NoCRC := false, FreqDev := 0, Data := [] }

/-- The bandwidth label table `bwStr` (lines 149-161); index 0 holds the
empty string. -/
def bwStr : List String :=
  ["", "BW7.8", "BW10.4", "BW15.6", "BW20.8", "BW31.2", "BW41.7",
   "BW62.5", "BW125", "BW250", "BW500"]

/-- `RxPacket` (lines 164-193), field for field.  `StatCRC` is a signed
8-bit value, modelled as `Int`; the float fields `RSSI` and `LoRaSNR` are
modelled as `Rat`. -/
structure RxPacket where
  Time : GoTime
  CountUs : Nat
  Freq : Nat
  ChainIF : Nat
  ChainRF : Nat
  StatCRC : Int
  Modulation : String
  LoRaBW : Nat
  LoRaCR : Nat
  Datarate : Nat
  RSSI : Rat
  LoRaSNR : Rat
  Data : List Nat
deriving DecidableEq

/-- Base64 alphabet character for a 6-bit value. -/
def b64Char (n : Nat) : Char :=
  if n < 26 then Char.ofNat (65 + n)
  else if n < 52 then Char.ofNat (97 + n - 26)
  else if n < 62 then Char.ofNat (48 + n - 52)
  else if n = 62 then '+'
  else '/'

/-- Encodes bytes three at a time into padded base64 groups. -/
def b64EncodeGroups : List Nat → List Char
  | [] => []
  | [a] => [b64Char (a / 4), b64Char ((a % 4) * 16), '=', '=']
  | [a, b] => [b64Char (a / 4), b64Char ((a % 4) * 16 + b / 16),
               b64Char ((b % 16) * 4), '=']
  | a :: b :: c :: rest =>
    [b64Char (a / 4), b64Char ((a % 4) * 16 + b / 16),
     b64Char ((b % 16) * 4 + c / 64), b64Char (c % 64)]
      ++ b64EncodeGroups rest

/-- Models `base64.StdEncoding.EncodeToString` (line 214). -/
def base64Encode (l : List Nat) : String := String.mk (b64EncodeGroups l)

/-- Surrounds a string with the double quotes the encoder writes around
JSON string values. -/
def jquote (s : String) : String := "\"" ++ s ++ "\""

/-- Six-digit zero-padded decimal rendering of a value below 1000000. -/
def pad6 (n : Nat) : String :=
  let s := toString n
  String.mk (List.replicate (6 - s.length) (Char.ofNat 48)) ++ s

/-- Models `fmt.Fprintf("%.6f", float64(freq)/1e6)` (line 201) at the
level of its decimal result.  For every `freq` below 2^32 the double
`float64(freq)/1e6` differs from the exact quotient by far less than
5e-7, so rounding it to six decimal places yields exactly the digits of
`freq/10^6`; the model produces those digits directly. -/
def fmtFreq6 (hz : Nat) : String :=
  toString (hz / 1000000) ++ "." ++ pad6 (hz % 1000000)

/-- Models `%.0f` float formatting (line 212) at the level of its decimal
result.  (Rounding-mode edge cases of binary floats are not modelled; no
theorem below depends on these digits.) -/
def fmtF0 (q : Rat) : String := toString (round q)

/-- Models `%.1f` float formatting (line 207) at the level of its decimal
result, one digit after the point.  (Rounding-mode edge cases of binary
floats are not modelled; no theorem below depends on these digits.) -/
def fmtF1 (q : Rat) : String :=
  let n := round (q * 10)
  (if n < 0 then "-" else "") ++ toString (n.natAbs / 10) ++ "."
    ++ toString (n.natAbs % 10)

/-- The field sequence `(*RxPacket).MarshalJSON` (lines 195-216) writes
into its buffer, one (key, rendered value) pair per `Fprintf` call, in
source order: the six header fields, then the modulation branch (the
`else` branch emitting `modu:"FSK"` covers every non-"LORA" modulation
string), then the common tail.  The value component carries the exact
characters written after the colon, including the surrounding quotes of
string values.  `bwStr[rx.LoRaBW]` with an out-of-range index panics in
Go; the model returns `none` for the whole call in that case. -/
def marshalFields (rx : RxPacket) : Option (List (String × String)) :=
  let head :=
    [("tmst", toString rx.CountUs),
     ("time", jquote rx.Time.rfc3339),
     ("chan", toString rx.ChainIF),
     ("rfch", toString rx.ChainRF),
     ("freq", fmtFreq6 rx.Freq),
     ("stat", toString rx.StatCRC)]
  let tail :=
    [("rssi", fmtF0 rx.RSSI),
     ("size", toString rx.Data.length),
     ("data", jquote (base64Encode rx.Data))]
  if rx.Modulation = "LORA" then
    match bwStr.get? rx.LoRaBW with
    | none => none
    | some lbl =>
      some (head ++
        [("modu", jquote "LORA"),
         ("datr", jquote ("SF" ++ toString rx.Datarate ++ lbl)),
         ("codr", jquote ("4/" ++ toString rx.LoRaCR)),
         ("lsnr", fmtF1 rx.LoRaSNR)] ++ tail)
  else
    some (head ++
      [("modu", jquote "FSK"),
       ("datr", toString rx.Datarate)] ++ tail)

/-- Renders the field list as the single flat JSON object the buffer
holds at line 215. -/
def renderFields (l : List (String × String)) : String :=
  "\x7b" ++ String.intercalate ","
      (l.map (fun kv => jquote kv.1 ++ ":" ++ kv.2)) ++ "\x7d"

/-- `(*RxPacket).MarshalJSON` at the function boundary: the produced
byte string, or `none` for the panic on an out-of-range bandwidth
code. -/
def MarshalJSON (rx : RxPacket) : Option String :=
  (marshalFields rx).map renderFields

/-- Value rendered for a key in the emitted field list. -/
def fieldVal (l : List (String × String)) (k : String) : Option String :=
  (l.find? (fun kv => kv.1 == k)).map (fun kv => kv.2)

/-- The bandwidth label for codes 1..10 exactly as the specification
enumerates it (kHz label preceded by "BW"); written from the
specification table, to be compared with the source table `bwStr`. -/
def specBwLabel : Nat → String
  | 1 => "BW7.8"
  | 2 => "BW10.4"
  | 3 => "BW15.6"
  | 4 => "BW20.8"
  | 5 => "BW31.2"
  | 6 => "BW41.7"
  | 7 => "BW62.5"
  | 8 => "BW125"
  | 9 => "BW250"
  | 10 => "BW500"
  | _ => ""

/-- Concrete wire LoRa transmit object for exercising the decoder on a
table bandwidth (kHz label 125). -/
def c1Json : String :=
  "\x7b\"imme\":false,\"tmst\":0,\"freq\":868.1,\"rfch\":0,\"modu\":\"LORA\",\"datr\":\"SF7BW125\",\"codr\":\"4/5\",\"data\":\"\"\x7d"

/-- Concrete wire LoRa transmit object carrying the coderate alias
"2/3". -/
def c6Json : String :=
  "\x7b\"modu\":\"LORA\",\"datr\":\"SF7BW500\",\"codr\":\"2/3\",\"data\":\"\"\x7d"

/-- Concrete wire FSK transmit object whose `datr` is a string (wrong
dynamic type for FSK). -/
def c7Json : String :=
  "\x7b\"modu\":\"FSK\",\"datr\":\"50000\",\"data\":\"\"\x7d"

/-- Concrete wire FSK transmit object with `fdev` 3000. -/
def c8Json : String :=
  "\x7b\"modu\":\"FSK\",\"datr\":50000,\"fdev\":3000,\"data\":\"\"\x7d"

/-- A receiver whose `FreqDev` field starts at 5, to observe whether the
decoder writes it. -/
def txC8 : TxPacket := { txZero with FreqDev := 5 }

/-- A receiver whose `Immediate` field starts at `true`, to observe
mutation of the receiver across a failing decode. -/
def txC3 : TxPacket := { txZero with Immediate := true }

/-- Evaluation of the decoder: every call returns the unknown-modulation
error for the empty string and the receiver with the six scalar fields
copied from the zero-valued wire struct, the modulation switch taking
its default branch. -/
theorem unarshal_eval (tx : TxPacket) (input : List Nat) :
    UnarshalJSON tx input =
      (some (DecodeError.unknownModulation ""),
       { tx with Immediate := false, CountUs := 0, NoCRC := false,
                 Freq := 0, ChainRF := 0, Power := 0 }) := by
  have h : (truncRat (zeroTxWire.Freq * 1000000)).toNat % 4294967296 = 0 := by
    norm_num [zeroTxWire, truncRat, Rat.floor_def']
  rw [show UnarshalJSON tx input =
        (some (DecodeError.unknownModulation ""),
         { tx with Immediate := false, CountUs := 0, NoCRC := false,
                   Freq := (truncRat (zeroTxWire.Freq * 1000000)).toNat
                     % 4294967296,
                   ChainRF := 0, Power := 0 }) from rfl, h]

/-- C1: the claim says decode succeeds on a LoRa wire object with a
table bandwidth label and fails with UnknownBandwidth on an unlisted
one.  The code does neither: `UnarshalJSON` never populates its wire
struct from the input bytes, so on the serialized object
`modu=LORA, datr=SF7BW125` it returns the unknown-modulation error for
the empty modulation string; moreover the bandwidth switch itself maps
the scanned integer 128 — not the table label 125 — to code 8, so even
a populated decode would reject `BW125`. -/
theorem c1_bw125_decode_unknown_modulation :
    UnarshalJSON txZero (strBytes c1Json) =
      (some (DecodeError.unknownModulation ""), txZero) ∧
    bwCode 125 = none ∧ bwCode 128 = some 8 := by
  refine ⟨?_, rfl, rfl⟩
  rw [unarshal_eval]
  rfl

/-- C2: for every receiver and any two input byte slices, `UnarshalJSON`
returns the same result, namely the unknown-modulation error for the
empty modulation string, with the receiver's copied scalar fields set
from the zero-valued wire struct: the local wire struct is declared with
a zero value and never populated from the input. -/
theorem c2_decode_ignores_input (tx : TxPacket) (i1 i2 : List Nat) :
    UnarshalJSON tx i1 = UnarshalJSON tx i2 ∧
    UnarshalJSON tx i1 =
      (some (DecodeError.unknownModulation ""),
       { tx with Immediate := false, CountUs := 0, NoCRC := false,
                 Freq := 0, ChainRF := 0, Power := 0 }) :=
  ⟨(unarshal_eval tx i1).trans (unarshal_eval tx i2).symm, unarshal_eval tx i1⟩

/-- C3 counterexample: decoding is not all-or-nothing on the receiver.
Starting from a receiver with `Immediate = true`, the decode returns an
error, yet the receiver has been modified (its `Immediate` field was
overwritten before the error return). -/
theorem c3_counterexample :
    (UnarshalJSON txC3 []).1.isSome = true ∧
    (UnarshalJSON txC3 []).2 ≠ txC3 := by
  exact ⟨rfl, by decide⟩

/-- C3 amended: when decode returns an error, no packet value is
produced, but the receiver is not left unchanged: the scalar fields
copied before the modulation dispatch (`Immediate`, `CountUs`, `NoCRC`,
`Freq`, `ChainRF`, `Power`) have been overwritten with the wire-struct
values (all zero, the wire struct being never populated); every other
field of the receiver is unchanged. -/
theorem c3_error_with_partial_mutation (tx : TxPacket) (input : List Nat) :
    (UnarshalJSON tx input).1.isSome = true ∧
    (UnarshalJSON tx input).2 =
      { tx with Immediate := false, CountUs := 0, NoCRC := false,
                Freq := 0, ChainRF := 0, Power := 0 } := by
  rw [unarshal_eval]
  exact ⟨rfl, rfl⟩

/-- C6: the claim says decoding `codr` "2/3" (like "4/6") yields
coderate code 6.  The code instead returns the unknown-modulation error
on the serialized object, since the wire struct is never populated from
the input; the coderate switch itself (unreachable) does map both
aliases to 6. -/
theorem c6_alias_decode_unknown_modulation :
    UnarshalJSON txZero (strBytes c6Json) =
      (some (DecodeError.unknownModulation ""), txZero) ∧
    crCode "2/3" = some 6 ∧ crCode "4/6" = some 6 := by
  refine ⟨?_, rfl, rfl⟩
  rw [unarshal_eval]
  rfl

/-- C7: the claim says an FSK wire object whose `datr` is a string fails
with the wrong-type error.  The code returns the unknown-modulation
error instead: the wire struct is never populated from the input, so the
FSK branch (whose type assertion would produce the wrong-type error) is
never reached. -/
theorem c7_fsk_string_datr_unknown_modulation :
    UnarshalJSON txZero (strBytes c7Json) =
      (some (DecodeError.unknownModulation ""), txZero) := by
  rw [unarshal_eval]
  rfl

/-- C8: the claim says the decoded `FreqDev` equals the wire `fdev`
divided by 1000 and truncated.  On the serialized FSK object with
`fdev = 3000`, the code fails with the unknown-modulation error and the
receiver's `FreqDev` field keeps its prior value 5 (it is never
assigned), instead of becoming 3. -/
theorem c8_fdev_never_assigned :
    (UnarshalJSON txC8 (strBytes c8Json)).1 =
      some (DecodeError.unknownModulation "") ∧
    (UnarshalJSON txC8 (strBytes c8Json)).2.FreqDev = 5 :=
  ⟨rfl, rfl⟩

/-- C10: for every receiver and input, decode leaves the `TimeGPS` field
of the receiver unchanged: `UnarshalJSON` never assigns it. -/
theorem c10_timegps_unchanged (tx : TxPacket) (input : List Nat) :
    ((UnarshalJSON tx input).2).TimeGPS = tx.TimeGPS :=
  rfl

/-- Equation lemma: the field list on the LoRa branch, given the label
the bandwidth table lookup yields. -/
theorem marshalFields_lora (rx : RxPacket) (hm : rx.Modulation = "LORA")
    (lbl : String) (hg : bwStr.get? rx.LoRaBW = some lbl) :
    marshalFields rx =
      some [("tmst", toString rx.CountUs),
            ("time", jquote rx.Time.rfc3339),
            ("chan", toString rx.ChainIF),
            ("rfch", toString rx.ChainRF),
            ("freq", fmtFreq6 rx.Freq),
            ("stat", toString rx.StatCRC),
            ("modu", jquote "LORA"),
            ("datr", jquote ("SF" ++ toString rx.Datarate ++ lbl)),
            ("codr", jquote ("4/" ++ toString rx.LoRaCR)),
            ("lsnr", fmtF1 rx.LoRaSNR),
            ("rssi", fmtF0 rx.RSSI),
            ("size", toString rx.Data.length),
            ("data", jquote (base64Encode rx.Data))] := by
  unfold marshalFields
  rw [if_pos hm, hg]
  rfl

/-- Equation lemma: a LoRa packet whose bandwidth code falls outside the
label table makes the whole marshal panic (`none`). -/
theorem marshalFields_lora_panic (rx : RxPacket) (hm : rx.Modulation = "LORA")
    (hg : bwStr.get? rx.LoRaBW = none) :
    marshalFields rx = none := by
  unfold marshalFields
  rw [if_pos hm, hg]

/-- Equation lemma: the field list on the non-LoRa branch (the source
labels every non-"LORA" packet as FSK). -/
theorem marshalFields_not_lora (rx : RxPacket)
    (hm : ¬(rx.Modulation = "LORA")) :
    marshalFields rx =
      some [("tmst", toString rx.CountUs),
            ("time", jquote rx.Time.rfc3339),
            ("chan", toString rx.ChainIF),
            ("rfch", toString rx.ChainRF),
            ("freq", fmtFreq6 rx.Freq),
            ("stat", toString rx.StatCRC),
            ("modu", jquote "FSK"),
            ("datr", toString rx.Datarate),
            ("rssi", fmtF0 rx.RSSI),
            ("size", toString rx.Data.length),
            ("data", jquote (base64Encode rx.Data))] := by
  unfold marshalFields
  rw [if_neg hm]
  rfl

/-- For every code 1..10 the source label table agrees with the label
table of the specification. -/
theorem bwStr_get_spec (n : Nat) (h1 : 1 ≤ n) (h2 : n ≤ 10) :
    bwStr.get? n = some (specBwLabel n) := by
  interval_cases n <;> rfl

/-- Every index up to 10 has an entry in the label table (index 0 holds
the empty label). -/
theorem bwStr_get_le10 (n : Nat) (h : n ≤ 10) :
    ∃ lbl, bwStr.get? n = some lbl := by
  interval_cases n <;> exact ⟨_, rfl⟩

/-- A LoRa receive packet carrying the reserved bandwidth code 0. -/
def rxC4 : RxPacket :=
  { Time := { rfc3339 := "2020-01-01T00:00:00Z" }, CountUs := 1000,
    Freq := 868100000, ChainIF := 0, ChainRF := 0, StatCRC := 1,
    Modulation := "LORA", LoRaBW := 0, LoRaCR := 5, Datarate := 7,
    RSSI := -35, LoRaSNR := 5, Data := [] }

/-- C4 counterexample: for the reserved bandwidth code 0 the encoder
does not panic and does not return an error: it succeeds, silently
emitting a `datr` value with no bandwidth label at all
(`"SF7"` for spreading factor 7). -/
theorem c4_counterexample :
    (MarshalJSON rxC4).isSome = true ∧
    fieldVal ((marshalFields rxC4).getD []) "datr" = some (jquote "SF7") :=
  ⟨rfl, rfl⟩

/-- C4 amended: for a LORA packet with a bandwidth code of 11 or more
the encoder panics (out-of-range index, modelled by `none`); for the
reserved code 0 it does not abort but silently emits a `datr` field whose
bandwidth label is missing (the empty label of table index 0). -/
theorem c4_out_of_range_bw (rx : RxPacket) (hm : rx.Modulation = "LORA") :
    (11 ≤ rx.LoRaBW → MarshalJSON rx = none) ∧
    (rx.LoRaBW = 0 →
      fieldVal ((marshalFields rx).getD []) "datr" =
        some (jquote ("SF" ++ toString rx.Datarate))) := by
  constructor
  · intro h
    have hg : bwStr.get? rx.LoRaBW = none := by
      rw [List.get?_eq_none]
      simpa [bwStr] using h
    rw [MarshalJSON, marshalFields_lora_panic rx hm hg]
    rfl
  · intro h
    have hg : bwStr.get? rx.LoRaBW = some "" := by rw [h]; rfl
    rw [marshalFields_lora rx hm "" hg]
    show some (jquote ("SF" ++ toString rx.Datarate ++ "")) = _
    rw [String.append_empty]

/-- Witness for C4 amended: a LORA packet with bandwidth code 12 makes
the encoder panic, and with code 0 the emitted `datr` is the bare
spreading factor. -/
theorem c4_witness :
    MarshalJSON { rxC4 with LoRaBW := 12 } = none ∧
    fieldVal ((marshalFields rxC4).getD []) "datr" =
      some (jquote ("SF" ++ toString rxC4.Datarate)) :=
  ⟨(c4_out_of_range_bw { rxC4 with LoRaBW := 12 } rfl).1 (by decide),
   (c4_out_of_range_bw rxC4 rfl).2 rfl⟩

/-- C5: for every LORA receive packet whose bandwidth code is in 1..10,
the emitted `datr` field is exactly `"SF<sf>"` followed by the
specification's table label for that code. -/
theorem c5_datr_label (rx : RxPacket) (hm : rx.Modulation = "LORA")
    (h1 : 1 ≤ rx.LoRaBW) (h2 : rx.LoRaBW ≤ 10) :
    ∃ l, marshalFields rx = some l ∧
      fieldVal l "datr" =
        some (jquote ("SF" ++ toString rx.Datarate
          ++ specBwLabel rx.LoRaBW)) := by
  refine ⟨_, marshalFields_lora rx hm _ (bwStr_get_spec rx.LoRaBW h1 h2), ?_⟩
  rfl

/-- A LoRa receive packet with bandwidth code 8 and spreading factor
12, used to instantiate the universally quantified encoder claims. -/
def rxC5 : RxPacket :=
  { Time := { rfc3339 := "2020-01-01T00:00:00Z" }, CountUs := 3512348611,
    Freq := 868100000, ChainIF := 0, ChainRF := 0, StatCRC := 1,
    Modulation := "LORA", LoRaBW := 8, LoRaCR := 5, Datarate := 12,
    RSSI := -35, LoRaSNR := 5, Data := [72, 101, 108, 108, 111] }

/-- Witness for C5 at bandwidth code 8, spreading factor 12. -/
theorem c5_witness :
    ∃ l, marshalFields rxC5 = some l ∧
      fieldVal l "datr" =
        some (jquote ("SF" ++ toString rxC5.Datarate
          ++ specBwLabel rxC5.LoRaBW)) :=
  c5_datr_label rxC5 rfl (by decide) (by decide)

/-- C9: for every receive packet (whose bandwidth code respects the
1..10 table bound when the modulation is LORA, index 0 included as it
also emits), the encoder produces a single flat object with exactly
these keys in exactly this order: the six header fields, then `modu`,
then `datr`, `codr`, `lsnr` on the LORA branch or the bare `datr` on
the FSK branch, then `rssi`, `size`, `data` — and no other keys. -/
theorem c9_key_order (rx : RxPacket)
    (hbw : rx.Modulation = "LORA" → rx.LoRaBW ≤ 10) :
    ∃ l, marshalFields rx = some l ∧
      l.map Prod.fst =
        (if rx.Modulation = "LORA" then
          ["tmst", "time", "chan", "rfch", "freq", "stat", "modu",
           "datr", "codr", "lsnr", "rssi", "size", "data"]
        else
          ["tmst", "time", "chan", "rfch", "freq", "stat", "modu",
           "datr", "rssi", "size", "data"]) := by
  by_cases hm : rx.Modulation = "LORA"
  · obtain ⟨lbl, hg⟩ := bwStr_get_le10 rx.LoRaBW (hbw hm)
    refine ⟨_, marshalFields_lora rx hm lbl hg, ?_⟩
    rw [if_pos hm]
    rfl
  · refine ⟨_, marshalFields_not_lora rx hm, ?_⟩
    rw [if_neg hm]
    rfl

/-- An FSK receive packet used to instantiate the key-order claim. -/
def rxC9 : RxPacket :=
  { Time := { rfc3339 := "2020-01-01T00:00:00Z" }, CountUs := 1000,
    Freq := 868300000, ChainIF := 1, ChainRF := 0, StatCRC := 0,
    Modulation := "FSK", LoRaBW := 0, LoRaCR := 0, Datarate := 50000,
    RSSI := -80, LoRaSNR := 0, Data := [] }

/-- Witness for C9 on an FSK packet. -/
theorem c9_witness :
    ∃ l, marshalFields rxC9 = some l ∧
      l.map Prod.fst =
        (if rxC9.Modulation = "LORA" then
          ["tmst", "time", "chan", "rfch", "freq", "stat", "modu",
           "datr", "codr", "lsnr", "rssi", "size", "data"]
        else
          ["tmst", "time", "chan", "rfch", "freq", "stat", "modu",
           "datr", "rssi", "size", "data"]) :=
  c9_key_order rxC9 (by decide)
